import Mathlib

/-!
Shallow embedding of `protect_secrets.py` (repository sv-autotest).

The program batch-submits secrets read from a semicolon-delimited CSV
file.  Effects are modelled explicitly:

* the filesystem is an oracle `FS : String → Bool` saying which paths
  exist (`Path.exists`);
* the external submission client (`SecretVaultSubmitter`) is an oracle
  `AdapterEnv` giving, for one record, the outcome of constructing the
  client, of `authenticate`, of `submit_secret`, and of the context
  manager exit; each outcome is `Except String _` so that a raised
  exception (with its message) can be represented;
* the log stream is an explicit `List String` of emitted lines;
* the `csv.DictReader` rows are `Record` values whose six relevant
  fields are `Option String` (a field can be absent, like
  `record.get(f)` returning `None`, or present and possibly empty);
* `asyncio.as_completed` consumption order is an arbitrary scheduling
  function `sched`, constrained to permutations in theorems;
* the `asyncio.Semaphore` has no effect on computed values, so the
  value-level functions ignore it; its temporal behaviour is modelled
  separately as a small-step transition system (`Step`, at the end of
  the definitions) for the concurrency claim.
-/

namespace ProtectSecrets

/-- Filesystem oracle: whether a path exists as a file (`Path.exists`). -/
def FS : Type := String → Bool

/-- One CSV row as produced by `csv.DictReader`, restricted to the six
fields the program reads.  `none` models an absent key, `some s` a
present (possibly empty) value. -/
structure Record where
  username : Option String
  password : Option String
  secret_type : Option String
  secret : Option String
  secret_desc : Option String
  keepic : Option String
deriving Repr, DecidableEq

/-- Python truthiness test `not record.get(field)`: true when the field
is absent or the empty string. -/
def fieldMissing : Option String → Bool
  | none => true
  | some s => s == ""

/-- The `required_fields` list of `process_csv_record` (line 21). -/
def required_fields : List String :=
  ["username", "password", "secret_type", "secret", "secret_desc", "keepic"]

/-- Dictionary access `record.get(field)` for the six known keys. -/
def Record.get : Record → String → Option String
  | r, "username" => r.username
  | r, "password" => r.password
  | r, "secret_type" => r.secret_type
  | r, "secret" => r.secret
  | r, "secret_desc" => r.secret_desc
  | r, "keepic" => r.keepic
  | _, _ => none

/-- The first required field that is missing or empty, in the order the
validation loop of `process_csv_record` (lines 22-25) visits them. -/
def firstMissing (r : Record) : Option String :=
  required_fields.find? (fun f => fieldMissing (r.get f))

/-- Embedding of `validate_file_path` (lines 9-14): returns whether the
path exists, together with the log lines it emits. -/
def validate_file_path (fs : FS) (file_path : String) : Bool × List String :=
  if fs file_path then (true, [])
  else (false, ["File not found: " ++ file_path])

/-- The `SecretSubmission` object handed to the submitter. -/
structure SecretSubmission where
  name : String
  type : String
  tag : String
  text : String
  keepic_path : String
deriving Repr, DecidableEq

/-- Oracle for the external `SecretVaultSubmitter` while processing one
record.  `ctor` is entering the `with` block (construction), `auth` the
`authenticate` call, `submit` the `submit_secret` call, `exit` the
context manager exit releasing the session.  `Except.error e` models an
exception raised with message `e`. -/
structure AdapterEnv where
  ctor : Except String Unit
  auth : Except String Bool
  submit : Except String Bool
  exit : Except String Unit

/-- Observable trace of one `process_csv_record` run apart from its
boolean result: log lines, the `(stage, headless)` arguments the
`SecretVaultSubmitter` constructor was invoked with (if it was), whether
`authenticate` was called, the submission passed to `submit_secret` (if
any), and the `SecretSubmission` object constructed (if any). -/
structure RecordTrace where
  log : List String
  ctorArgs : Option (String × Bool)
  authCalled : Bool
  submitted : Option SecretSubmission
  built : Option SecretSubmission
deriving Repr, DecidableEq

/-- Embedding of lines 45-59 of `process_csv_record`: the
`with SecretVaultSubmitter(stage=stage, headless=False) as submitter:`
block.  In Python, if the body raises and `__exit__` also raises, the
exit exception is the one that propagates; if the body returns and
`__exit__` raises, the exit exception propagates as well; `__exit__`
does not run when construction itself raises. -/
def record_adapter_block (env : AdapterEnv) (stage username : String)
    (secretObj : SecretSubmission) : Except String Bool × RecordTrace :=
  match env.ctor with
  | .error e => (.error e, ⟨[], some (stage, false), false, none, some secretObj⟩)
  | .ok _ =>
    let lg0 := ["Attempting to protect secret for user: " ++ username]
    let body : Except String Bool × List String × Bool × Option SecretSubmission :=
      match env.auth with
      | .error e => (.error e, lg0, true, none)
      | .ok false =>
          (.ok false, lg0 ++ ["Authentication failed for user: " ++ username], true, none)
      | .ok true =>
        match env.submit with
        | .error e => (.error e, lg0, true, some secretObj)
        | .ok true =>
            (.ok true, lg0 ++ ["Successfully protected secret for user: " ++ username],
             true, some secretObj)
        | .ok false =>
            (.ok false, lg0 ++ ["Failed to protect secret for user: " ++ username],
             true, some secretObj)
    let res : Except String Bool :=
      match env.exit with
      | .error e => .error e
      | .ok _ => body.1
    (res, ⟨body.2.1, some (stage, false), body.2.2.1, body.2.2.2, some secretObj⟩)

/-- Embedding of lines 32-59 of `process_csv_record`: the `keepic` file
check, the construction of the `SecretSubmission` object, and the
submitter block.  Reached once the required fields are present and the
`secret` path check (for file/image types) has passed. -/
def record_keepic_onward (fs : FS) (env : AdapterEnv) (stage : String)
    (username secret_type secret secret_desc keepic : String) :
    Except String Bool × RecordTrace :=
  match validate_file_path fs keepic with
  | (false, lg) => (.ok false, ⟨lg, none, false, none, none⟩)
  | (true, lg) =>
    let secretObj : SecretSubmission :=
      ⟨secret_desc, secret_type, "",
       if secret_type == "text" then secret else "", keepic⟩
    let blk := record_adapter_block env stage username secretObj
    (blk.1, { blk.2 with log := lg ++ blk.2.log })

/-- Embedding of the body of the `try` block of `process_csv_record`
(lines 19-59): field validation, path validation, submission.  The
first component is `.ok b` when the body returns `b`, `.error e` when it
raises an exception with message `e`; the second component is the trace
accumulated up to that point. -/
def record_try_body (fs : FS) (env : AdapterEnv) (stage : String) (r : Record) :
    Except String Bool × RecordTrace :=
  match firstMissing r with
  | some f => (.ok false, ⟨["Missing required field: " ++ f], none, false, none, none⟩)
  | none =>
    let username := r.username.getD ""
    let secret_type := r.secret_type.getD ""
    let secret := r.secret.getD ""
    let secret_desc := r.secret_desc.getD ""
    let keepic := r.keepic.getD ""
    if secret_type == "file" || secret_type == "image" then
      match validate_file_path fs secret with
      | (false, lg) => (.ok false, ⟨lg, none, false, none, none⟩)
      | (true, lg) =>
        let rest := record_keepic_onward fs env stage username secret_type secret secret_desc keepic
        (rest.1, { rest.2 with log := lg ++ rest.2.log })
    else
      record_keepic_onward fs env stage username secret_type secret secret_desc keepic

/-- Result and trace of one record. -/
structure RecordOutcome where
  result : Bool
  log : List String
  ctorArgs : Option (String × Bool)
  authCalled : Bool
  submitted : Option SecretSubmission
  built : Option SecretSubmission
deriving Repr, DecidableEq

/-- Embedding of `process_csv_record` (lines 17-63): the `try` body
wrapped in `except Exception`, which logs the exception with the
username and turns it into a `False` result.  The surrounding
`async with semaphore` does not change the computed value and is
modelled separately as a transition system. -/
def process_csv_record (fs : FS) (env : AdapterEnv) (stage : String) (r : Record) :
    RecordOutcome :=
  match record_try_body fs env stage r with
  | (.ok b, tr) => ⟨b, tr.log, tr.ctorArgs, tr.authCalled, tr.submitted, tr.built⟩
  | (.error e, tr) =>
      ⟨false,
       tr.log ++ ["Error processing record for user " ++ r.username.getD "" ++ ": " ++ e],
       tr.ctorArgs, tr.authCalled, tr.submitted, tr.built⟩

/-- Aggregate counters of one batch run (the `results` dictionary of
`process_secrets_file`, lines 68-72). -/
structure BatchResult where
  total : Nat
  success : Nat
  failed : Nat
deriving Repr, DecidableEq

/-- One iteration of the `as_completed` loop of `process_secrets_file`
(lines 92-100): await one record result, bump the matching counter, and
emit a progress line.  The `completed` counter of the Python loop always
equals `success + failed` after the increment. -/
def batch_step (fs : FS) (env : Record → AdapterEnv) (stage : String)
    (acc : BatchResult × List String) (r : Record) : BatchResult × List String :=
  let out := process_csv_record fs (env r) stage r
  let res :=
    if out.result then { acc.1 with success := acc.1.success + 1 }
    else { acc.1 with failed := acc.1.failed + 1 }
  let completed := res.success + res.failed
  (res,
   acc.2 ++ out.log ++
     ["Progress: " ++ toString completed ++ "/" ++ toString res.total ++
      " (Success: " ++ toString res.success ++ ", Failed: " ++ toString res.failed ++ ")"])

/-- Embedding of `process_secrets_file` (lines 66-105).

`parse` is the outcome of opening and parsing the CSV file
(lines 75-77): `.error e` when that raises, `.ok records` otherwise.
`env` gives the adapter oracle for each record, and `sched` is the order
in which `asyncio.as_completed` yields the per-record tasks (an
arbitrary permutation of the records; theorems hypothesise this).  Any
exception is caught at line 102 and the counters collected so far are
returned, so the function itself is total and never raises. -/
def process_secrets_file (fs : FS) (parse : Except String (List Record))
    (env : Record → AdapterEnv) (stage : String) (sched : List Record → List Record) :
    BatchResult × List String :=
  match parse with
  | .error e => (⟨0, 0, 0⟩, ["Error processing CSV file: " ++ e])
  | .ok records =>
      (sched records).foldl (batch_step fs env stage) (⟨records.length, 0, 0⟩, [])

/-- The header row of `generate_sample_csv` (line 111). -/
def sample_headers : List String :=
  ["username", "password", "secret_type", "secret", "secret_desc", "keepic"]

/-- The synthetic row written for index `i` by the loop of
`generate_sample_csv` (lines 118-126). -/
def sampleRow (i : Nat) : List String :=
  ["user" ++ toString (i + 1),
   "password" ++ toString (i + 1),
   "text",
   "This is secret #" ++ toString (i + 1),
   "Sample Secret " ++ toString (i + 1),
   "./keepic.jpg"]

/-- How `csv.writer(delimiter=";")` renders one row.  None of the fields
written by `generate_sample_csv` contains a delimiter, quote or newline,
so no quoting is applied: the fields are joined with `;`. -/
def csvLine (fields : List String) : String :=
  String.intercalate ";" fields

/-- The lines of the file produced by `generate_sample_csv` with
`num_records` rows: the header followed by the synthetic rows. -/
def sampleLines (num_records : Nat) : List String :=
  csvLine sample_headers :: (List.range num_records).map (fun i => csvLine (sampleRow i))

/-- The byte content of the generated sample file: `csv.writer` ends
each row with its default line terminator. -/
def sampleContent (num_records : Nat) : String :=
  String.join ((sampleLines num_records).map (fun l => l ++ "\r\n"))

/-- A writable filesystem mapping each path to its content, for the
effect of `generate_sample_csv` on disk. -/
def FileStore : Type := String → Option String

/-- Embedding of `generate_sample_csv` (lines 108-131): opening the
output path with mode `w` truncates or creates the file, so the result
maps the output path to the freshly generated content and leaves every
other path unchanged. -/
def generate_sample_csv (store : FileStore) (output_file : String) (num_records : Nat) :
    FileStore :=
  fun p => if p = output_file then some (sampleContent num_records) else store p

/-- Phase of one per-record task relative to the semaphore of
`process_csv_record` (line 18) and the authenticate step (line 49).
`pending` is before `async with semaphore` grants a permit;
`validating` covers validation and adapter construction;
`authenticating` is the `authenticate` call; `submitting` is past the
authenticate step; `done` is after the record returned and released the
permit. -/
inductive TaskPhase where
  | pending
  | validating
  | authenticating
  | submitting
  | done
deriving Repr, DecidableEq

/-- Whether a phase holds a semaphore permit. -/
def holdsPermit : TaskPhase → Bool
  | .validating => true
  | .authenticating => true
  | .submitting => true
  | _ => false

/-- Whether a phase is past the authenticate step and still in flight. -/
def pastAuthenticate : TaskPhase → Bool
  | .submitting => true
  | _ => false

/-- Global state of a batch run: the phase of each scheduled task.  All
tasks are created up front (lines 85-88). -/
structure BatchState where
  tasks : List TaskPhase
deriving Repr, DecidableEq

/-- Number of tasks currently holding a permit. -/
def heldCount (s : BatchState) : Nat :=
  s.tasks.countP holdsPermit

/-- Number of tasks currently past the authenticate step. -/
def pastAuthCount (s : BatchState) : Nat :=
  s.tasks.countP pastAuthenticate

/-- Small-step semantics of the semaphore-gated batch with bound `n`
(`asyncio.Semaphore(max_concurrent)`, line 82).  A pending task may
enter the `async with semaphore` block only while fewer than `n` tasks
hold a permit; a task inside advances through the phases in order, and
may finish (releasing the permit) from any phase inside the block,
modelling early returns on validation failure, authentication failure,
submission outcome, or a caught exception. -/
inductive Step (n : Nat) : BatchState → BatchState → Prop where
  | acquire (i : Nat) (s : BatchState)
      (h : s.tasks.get? i = some .pending) (hn : heldCount s < n) :
      Step n s ⟨s.tasks.set i .validating⟩
  | toAuth (i : Nat) (s : BatchState)
      (h : s.tasks.get? i = some .validating) :
      Step n s ⟨s.tasks.set i .authenticating⟩
  | toSubmit (i : Nat) (s : BatchState)
      (h : s.tasks.get? i = some .authenticating) :
      Step n s ⟨s.tasks.set i .submitting⟩
  | finish (i : Nat) (s : BatchState) (ph : TaskPhase)
      (h : s.tasks.get? i = some ph) (hh : holdsPermit ph = true) :
      Step n s ⟨s.tasks.set i .done⟩

/-- Initial state of a batch with `k` scheduled tasks: all pending. -/
def initState (k : Nat) : BatchState :=
  ⟨List.replicate k .pending⟩

/-- Reachability under the semaphore semantics. -/
def Reachable (n : Nat) (s t : BatchState) : Prop :=
  Relation.ReflTransGen (Step n) s t

/-! Concrete sample data used by the witness theorems. -/

/-- Filesystem on which every path exists. -/
def fsAll : FS := fun _ => true

/-- Filesystem on which no path exists. -/
def fsNone : FS := fun _ => false

/-- Adapter oracle where every step succeeds. -/
def envOk : AdapterEnv := ⟨.ok (), .ok true, .ok true, .ok ()⟩

/-- Adapter oracle whose construction raises. -/
def envCtorBoom : AdapterEnv := ⟨.error "boom", .ok true, .ok true, .ok ()⟩

/-- A record with all six fields present and non-empty. -/
def recFull : Record :=
  ⟨some "alice", some "pw", some "text", some "s3cret", some "desc", some "pic.jpg"⟩

/-- A record whose password field is absent. -/
def recNoPass : Record :=
  ⟨some "bob", none, some "text", some "x", some "d", some "k.jpg"⟩

/-- A record of type file. -/
def recFileType : Record :=
  ⟨some "carol", some "pw", some "file", some "payload.bin", some "desc", some "pic.jpg"⟩

/-- A record with an unlisted secret type. -/
def recBanana : Record :=
  ⟨some "dave", some "pw", some "banana", some "s", some "d", some "pic.jpg"⟩

/-! Helper lemmas. -/

/-- Unfolding of the required-field scan into the six field tests, in
the order the loop visits them. -/
theorem firstMissing_eq_none_iff (r : Record) :
    firstMissing r = none ↔
      fieldMissing r.username = false ∧ fieldMissing r.password = false ∧
      fieldMissing r.secret_type = false ∧ fieldMissing r.secret = false ∧
      fieldMissing r.secret_desc = false ∧ fieldMissing r.keepic = false := by
  simp [firstMissing, required_fields, List.find?_eq_none, Record.get]

/-- A field that is present and non-empty under `fieldMissing`. -/
theorem getD_ne_empty_of_not_missing (o : Option String) (h : fieldMissing o = false) :
    o.getD "" ≠ "" := by
  cases o with
  | none => simp [fieldMissing] at h
  | some s => simpa [fieldMissing] using h

/-- Reduction of `process_csv_record` when the try body returns. -/
theorem process_csv_record_of_ok {fs : FS} {env : AdapterEnv} {stage : String} {r : Record}
    {b : Bool} {tr : RecordTrace}
    (h : record_try_body fs env stage r = (.ok b, tr)) :
    process_csv_record fs env stage r =
      ⟨b, tr.log, tr.ctorArgs, tr.authCalled, tr.submitted, tr.built⟩ := by
  unfold process_csv_record
  rw [h]

/-- Reduction of `process_csv_record` when the try body raises. -/
theorem process_csv_record_of_error {fs : FS} {env : AdapterEnv} {stage : String} {r : Record}
    {e : String} {tr : RecordTrace}
    (h : record_try_body fs env stage r = (.error e, tr)) :
    process_csv_record fs env stage r =
      ⟨false,
       tr.log ++ ["Error processing record for user " ++ r.username.getD "" ++ ": " ++ e],
       tr.ctorArgs, tr.authCalled, tr.submitted, tr.built⟩ := by
  unfold process_csv_record
  rw [h]

/-- The try body when a required field is missing: validation stops at
the first missing field, nothing else happens. -/
theorem record_try_body_of_missing {fs : FS} {env : AdapterEnv} {stage : String} {r : Record}
    {f : String} (h : firstMissing r = some f) :
    record_try_body fs env stage r =
      (.ok false, ⟨["Missing required field: " ++ f], none, false, none, none⟩) := by
  unfold record_try_body
  rw [h]

/-- The try body when the record has type file or image and its secret
path does not exist: validation stops there. -/
theorem record_try_body_of_secret_absent {fs : FS} {env : AdapterEnv} {stage : String}
    {r : Record} (hm : firstMissing r = none)
    (ht : (r.secret_type.getD "" == "file" || r.secret_type.getD "" == "image") = true)
    (hs : fs (r.secret.getD "") = false) :
    record_try_body fs env stage r =
      (.ok false, ⟨["File not found: " ++ r.secret.getD ""], none, false, none, none⟩) := by
  unfold record_try_body
  rw [hm]
  simp [ht, validate_file_path, hs]

/-- The try body when the keepic path does not exist (and the secret
path check, when applicable, passes): validation stops at the keepic
check. -/
theorem record_try_body_of_keepic_absent {fs : FS} {env : AdapterEnv} {stage : String}
    {r : Record} (hm : firstMissing r = none)
    (hsec : (r.secret_type.getD "" == "file" || r.secret_type.getD "" == "image") = true →
      fs (r.secret.getD "") = true)
    (hk : fs (r.keepic.getD "") = false) :
    record_try_body fs env stage r =
      (.ok false, ⟨["File not found: " ++ r.keepic.getD ""], none, false, none, none⟩) := by
  unfold record_try_body
  rw [hm]
  by_cases ht : (r.secret_type.getD "" == "file" || r.secret_type.getD "" == "image") = true
  · simp [ht, validate_file_path, hsec ht, record_keepic_onward, hk]
  · simp at ht
    simp [ht, validate_file_path, record_keepic_onward, hk]

/-- The `SecretSubmission` object built at lines 36-42 for a record. -/
def builtSubmission (r : Record) : SecretSubmission :=
  ⟨r.secret_desc.getD "", r.secret_type.getD "", "",
   if r.secret_type.getD "" == "text" then r.secret.getD "" else "",
   r.keepic.getD ""⟩

/-- The try body of a record that passes all validation: it is exactly
the submitter block on the built submission object. -/
theorem record_try_body_of_valid {fs : FS} {env : AdapterEnv} {stage : String}
    {r : Record} (hm : firstMissing r = none)
    (hsec : (r.secret_type.getD "" == "file" || r.secret_type.getD "" == "image") = true →
      fs (r.secret.getD "") = true)
    (hk : fs (r.keepic.getD "") = true) :
    record_try_body fs env stage r =
      record_adapter_block env stage (r.username.getD "") (builtSubmission r) := by
  unfold record_try_body
  rw [hm]
  by_cases ht : (r.secret_type.getD "" == "file" || r.secret_type.getD "" == "image") = true
  · simp [ht, validate_file_path, hsec ht, record_keepic_onward, hk, builtSubmission]
  · simp at ht
    simp [ht, validate_file_path, record_keepic_onward, hk, builtSubmission]

/-- The submitter constructor, when reached, is always invoked with the
run stage and `headless=False`. -/
theorem record_adapter_block_ctorArgs (env : AdapterEnv) (stage username : String)
    (o : SecretSubmission) :
    (record_adapter_block env stage username o).2.ctorArgs = some (stage, false) := by
  cases h : env.ctor <;> simp [record_adapter_block, h]

/-- The submitter block records the built submission object. -/
theorem record_adapter_block_built (env : AdapterEnv) (stage username : String)
    (o : SecretSubmission) :
    (record_adapter_block env stage username o).2.built = some o := by
  cases h : env.ctor <;> simp [record_adapter_block, h]

/-- The submission passed to `submit_secret`, when one is passed, is
the built submission object. -/
theorem record_adapter_block_submitted (env : AdapterEnv) (stage username : String)
    (o : SecretSubmission) :
    (record_adapter_block env stage username o).2.submitted = none ∨
    (record_adapter_block env stage username o).2.submitted = some o := by
  cases h : env.ctor
  · simp [record_adapter_block, h]
  · cases ha : env.auth with
    | error e => simp [record_adapter_block, h, ha]
    | ok b =>
      cases b
      · simp [record_adapter_block, h, ha]
      · cases hs : env.submit with
        | error e => simp [record_adapter_block, h, ha, hs]
        | ok b2 => cases b2 <;> simp [record_adapter_block, h, ha, hs]

/-- The observable trace fields of `process_csv_record` agree with
those of its try body: the except wrapper only changes the result and
appends a log line. -/
theorem process_csv_record_trace (fs : FS) (env : AdapterEnv) (stage : String) (r : Record) :
    (process_csv_record fs env stage r).ctorArgs = (record_try_body fs env stage r).2.ctorArgs ∧
    (process_csv_record fs env stage r).authCalled = (record_try_body fs env stage r).2.authCalled ∧
    (process_csv_record fs env stage r).submitted = (record_try_body fs env stage r).2.submitted ∧
    (process_csv_record fs env stage r).built = (record_try_body fs env stage r).2.built := by
  rcases h : record_try_body fs env stage r with ⟨res, tr⟩
  cases res with
  | ok b =>
    rw [process_csv_record_of_ok h]
    exact ⟨rfl, rfl, rfl, rfl⟩
  | error e =>
    rw [process_csv_record_of_error h]
    exact ⟨rfl, rfl, rfl, rfl⟩

/-- On every path, the try body either never reaches the submitter
constructor or invokes it with `(stage, headless=False)`. -/
theorem record_try_body_ctorArgs (fs : FS) (env : AdapterEnv) (stage : String) (r : Record) :
    (record_try_body fs env stage r).2.ctorArgs = none ∨
    (record_try_body fs env stage r).2.ctorArgs = some (stage, false) := by
  cases hf : firstMissing r with
  | some f =>
    rw [record_try_body_of_missing hf]
    exact Or.inl rfl
  | none =>
    by_cases ht : (r.secret_type.getD "" == "file" || r.secret_type.getD "" == "image") = true
    · by_cases hs : fs (r.secret.getD "") = true
      · by_cases hk : fs (r.keepic.getD "") = true
        · rw [record_try_body_of_valid hf (fun _ => hs) hk, record_adapter_block_ctorArgs]
          exact Or.inr rfl
        · have hk' : fs (r.keepic.getD "") = false := by simpa using hk
          rw [record_try_body_of_keepic_absent hf (fun _ => hs) hk']
          exact Or.inl rfl
      · have hs' : fs (r.secret.getD "") = false := by simpa using hs
        rw [record_try_body_of_secret_absent hf ht hs']
        exact Or.inl rfl
    · by_cases hk : fs (r.keepic.getD "") = true
      · rw [record_try_body_of_valid hf (fun htt => absurd htt ht) hk,
            record_adapter_block_ctorArgs]
        exact Or.inr rfl
      · have hk' : fs (r.keepic.getD "") = false := by simpa using hk
        rw [record_try_body_of_keepic_absent hf (fun htt => absurd htt ht) hk']
        exact Or.inl rfl

/-! Claim theorems. -/

/-- C2: for every record in which any of the fields username, password,
secret type, secret, secret description or keepic is missing or empty,
`process_csv_record` returns false and the submitter is never
constructed, never authenticated and never handed a submission. -/
theorem missing_field_never_reaches_adapter (fs : FS) (env : AdapterEnv) (stage : String)
    (r : Record)
    (h : fieldMissing r.username = true ∨ fieldMissing r.password = true ∨
         fieldMissing r.secret_type = true ∨ fieldMissing r.secret = true ∨
         fieldMissing r.secret_desc = true ∨ fieldMissing r.keepic = true) :
    (process_csv_record fs env stage r).result = false ∧
    (process_csv_record fs env stage r).ctorArgs = none ∧
    (process_csv_record fs env stage r).authCalled = false ∧
    (process_csv_record fs env stage r).submitted = none := by
  cases hf : firstMissing r with
  | none =>
    rcases (firstMissing_eq_none_iff r).mp hf with ⟨h1, h2, h3, h4, h5, h6⟩
    rcases h with h | h | h | h | h | h <;> simp_all
  | some f =>
    rw [process_csv_record_of_ok (record_try_body_of_missing hf)]
    exact ⟨rfl, rfl, rfl, rfl⟩

/-- Witness for C2: a record with an absent password field. -/
theorem missing_field_never_reaches_adapter_witness :
    fieldMissing recNoPass.password = true ∧
    ((process_csv_record fsAll envOk "dev" recNoPass).result = false ∧
     (process_csv_record fsAll envOk "dev" recNoPass).ctorArgs = none ∧
     (process_csv_record fsAll envOk "dev" recNoPass).authCalled = false ∧
     (process_csv_record fsAll envOk "dev" recNoPass).submitted = none) :=
  ⟨rfl, missing_field_never_reaches_adapter fsAll envOk "dev" recNoPass (Or.inr (Or.inl rfl))⟩

/-- C3: a record of type file or image whose secret path does not
exist, or any record whose keepic path does not exist, fails and never
reaches the submitter. -/
theorem missing_file_never_reaches_adapter (fs : FS) (env : AdapterEnv) (stage : String)
    (r : Record)
    (h : ((r.secret_type = some "file" ∨ r.secret_type = some "image") ∧
          fs (r.secret.getD "") = false) ∨
         fs (r.keepic.getD "") = false) :
    (process_csv_record fs env stage r).result = false ∧
    (process_csv_record fs env stage r).ctorArgs = none ∧
    (process_csv_record fs env stage r).authCalled = false ∧
    (process_csv_record fs env stage r).submitted = none := by
  cases hf : firstMissing r with
  | some f =>
    rw [process_csv_record_of_ok (record_try_body_of_missing hf)]
    exact ⟨rfl, rfl, rfl, rfl⟩
  | none =>
    by_cases ht : (r.secret_type.getD "" == "file" || r.secret_type.getD "" == "image") = true
    · by_cases hs : fs (r.secret.getD "") = true
      · have hk : fs (r.keepic.getD "") = false := by
          rcases h with ⟨_, hfalse⟩ | hk
          · rw [hs] at hfalse
            exact absurd hfalse (by simp)
          · exact hk
        rw [process_csv_record_of_ok (record_try_body_of_keepic_absent hf (fun _ => hs) hk)]
        exact ⟨rfl, rfl, rfl, rfl⟩
      · have hs' : fs (r.secret.getD "") = false := by simpa using hs
        rw [process_csv_record_of_ok (record_try_body_of_secret_absent hf ht hs')]
        exact ⟨rfl, rfl, rfl, rfl⟩
    · have hk : fs (r.keepic.getD "") = false := by
        rcases h with ⟨hty, _⟩ | hk
        · exfalso
          apply ht
          rcases hty with h' | h' <;> simp [h']
        · exact hk
      rw [process_csv_record_of_ok
            (record_try_body_of_keepic_absent hf (fun htt => absurd htt ht) hk)]
      exact ⟨rfl, rfl, rfl, rfl⟩

/-- Witness for C3: a file-type record on a filesystem where its secret
path does not exist. -/
theorem missing_file_never_reaches_adapter_witness :
    (recFileType.secret_type = some "file" ∧ fsNone (recFileType.secret.getD "") = false) ∧
    ((process_csv_record fsNone envOk "dev" recFileType).result = false ∧
     (process_csv_record fsNone envOk "dev" recFileType).ctorArgs = none ∧
     (process_csv_record fsNone envOk "dev" recFileType).authCalled = false ∧
     (process_csv_record fsNone envOk "dev" recFileType).submitted = none) :=
  ⟨⟨rfl, rfl⟩,
   missing_file_never_reaches_adapter fsNone envOk "dev" recFileType (Or.inl ⟨Or.inl rfl, rfl⟩)⟩

/-- C4: every exception raised inside the try body of
`process_csv_record` is caught: the record resolves to false and the
exception is logged together with the username of the record.  (The
result type `RecordOutcome` itself witnesses that nothing propagates:
the per-record function is total.) -/
theorem record_exception_caught (fs : FS) (env : AdapterEnv) (stage : String) (r : Record)
    (e : String) (h : (record_try_body fs env stage r).1 = .error e) :
    (process_csv_record fs env stage r).result = false ∧
    ("Error processing record for user " ++ r.username.getD "" ++ ": " ++ e)
      ∈ (process_csv_record fs env stage r).log := by
  rcases h2 : record_try_body fs env stage r with ⟨res, tr⟩
  rw [h2] at h
  cases res with
  | ok b => simp at h
  | error e2 =>
    have he : e2 = e := by simpa using h
    subst he
    rw [process_csv_record_of_error h2]
    exact ⟨rfl, by simp⟩

/-- Witness for C4: a valid record whose submitter construction raises. -/
theorem record_exception_caught_witness :
    (record_try_body fsAll envCtorBoom "dev" recFull).1 = .error "boom" ∧
    ((process_csv_record fsAll envCtorBoom "dev" recFull).result = false ∧
     ("Error processing record for user " ++ recFull.username.getD "" ++ ": " ++ "boom")
       ∈ (process_csv_record fsAll envCtorBoom "dev" recFull).log) :=
  ⟨rfl, record_exception_caught fsAll envCtorBoom "dev" recFull "boom" rfl⟩

/-- C7: for every record that passes validation, the submission object
built for it carries the record's description as name, its type, an
empty tag, its keepic path, and its secret as text exactly when the
type is text; whenever a submission is passed to `submit_secret`, it is
that object. -/
theorem valid_record_submission_shape (fs : FS) (env : AdapterEnv) (stage : String)
    (r : Record) (hm : firstMissing r = none)
    (hsec : (r.secret_type.getD "" == "file" || r.secret_type.getD "" == "image") = true →
      fs (r.secret.getD "") = true)
    (hk : fs (r.keepic.getD "") = true) :
    ∃ s : SecretSubmission,
      (process_csv_record fs env stage r).built = some s ∧
      s.name = r.secret_desc.getD "" ∧
      s.type = r.secret_type.getD "" ∧
      s.tag = "" ∧
      s.keepic_path = r.keepic.getD "" ∧
      s.text = (if r.secret_type.getD "" = "text" then r.secret.getD "" else "") ∧
      (s.text = r.secret.getD "" ↔ r.secret_type.getD "" = "text") ∧
      ((process_csv_record fs env stage r).submitted = none ∨
       (process_csv_record fs env stage r).submitted = some s) := by
  obtain ⟨hc, ha, hsub, hb⟩ := process_csv_record_trace fs env stage r
  refine ⟨builtSubmission r, ?_, rfl, rfl, rfl, rfl, ?_, ?_, ?_⟩
  · rw [hb, record_try_body_of_valid hm hsec hk, record_adapter_block_built]
  · by_cases htype : r.secret_type.getD "" = "text" <;>
      simp [builtSubmission, htype]
  · constructor
    · intro htext
      by_contra hne
      have hbeq : (r.secret_type.getD "" == "text") = false := by simp [hne]
      have h0 : (builtSubmission r).text = "" := by simp [builtSubmission, hbeq]
      have hne2 := getD_ne_empty_of_not_missing r.secret
        ((firstMissing_eq_none_iff r).mp hm).2.2.2.1
      rw [h0] at htext
      exact hne2 htext.symm
    · intro htype
      simp [builtSubmission, htype]
  · rw [hsub, record_try_body_of_valid hm hsec hk]
    exact record_adapter_block_submitted env stage (r.username.getD "") (builtSubmission r)

/-- Witness for C7: a fully populated text record on a filesystem
where every path exists. -/
theorem valid_record_submission_shape_witness :
    firstMissing recFull = none ∧ fsAll (recFull.keepic.getD "") = true ∧
    (∃ s : SecretSubmission,
      (process_csv_record fsAll envOk "dev" recFull).built = some s ∧
      s.name = recFull.secret_desc.getD "" ∧
      s.type = recFull.secret_type.getD "" ∧
      s.tag = "" ∧
      s.keepic_path = recFull.keepic.getD "" ∧
      s.text = (if recFull.secret_type.getD "" = "text" then recFull.secret.getD "" else "") ∧
      (s.text = recFull.secret.getD "" ↔ recFull.secret_type.getD "" = "text") ∧
      ((process_csv_record fsAll envOk "dev" recFull).submitted = none ∨
       (process_csv_record fsAll envOk "dev" recFull).submitted = some s)) :=
  ⟨rfl, rfl,
   valid_record_submission_shape fsAll envOk "dev" recFull rfl (fun _ => rfl) rfl⟩

/-- C9: a record whose six fields are non-empty, whose keepic path
exists, and whose secret type is any string other than text, file and
image still passes validation: the submitter constructor is reached,
and the submission is built with an empty text. -/
theorem unknown_secret_type_reaches_adapter (fs : FS) (env : AdapterEnv) (stage : String)
    (r : Record) (hm : firstMissing r = none)
    (ht : r.secret_type.getD "" ≠ "text" ∧ r.secret_type.getD "" ≠ "file" ∧
          r.secret_type.getD "" ≠ "image")
    (hk : fs (r.keepic.getD "") = true) :
    (process_csv_record fs env stage r).ctorArgs = some (stage, false) ∧
    (process_csv_record fs env stage r).built = some (builtSubmission r) ∧
    (builtSubmission r).text = "" := by
  obtain ⟨ht1, ht2, ht3⟩ := ht
  have hsec : (r.secret_type.getD "" == "file" || r.secret_type.getD "" == "image") = true →
      fs (r.secret.getD "") = true := by
    intro h
    exfalso
    simp [ht2, ht3] at h
  obtain ⟨hc, ha, hsub, hb⟩ := process_csv_record_trace fs env stage r
  refine ⟨?_, ?_, ?_⟩
  · rw [hc, record_try_body_of_valid hm hsec hk, record_adapter_block_ctorArgs]
  · rw [hb, record_try_body_of_valid hm hsec hk, record_adapter_block_built]
  · simp [builtSubmission, ht1]

/-- Witness for C9: a record with secret type banana. -/
theorem unknown_secret_type_reaches_adapter_witness :
    firstMissing recBanana = none ∧ recBanana.secret_type.getD "" = "banana" ∧
    ((process_csv_record fsAll envOk "dev" recBanana).ctorArgs = some ("dev", false) ∧
     (process_csv_record fsAll envOk "dev" recBanana).built = some (builtSubmission recBanana) ∧
     (builtSubmission recBanana).text = "") :=
  ⟨rfl, rfl,
   unknown_secret_type_reaches_adapter fsAll envOk "dev" recBanana rfl
     ⟨by decide, by decide, by decide⟩ rfl⟩

/-- C10: on every path of `process_csv_record`, whenever the submitter
is constructed, it is constructed with the headless flag false. -/
theorem submitter_never_headless (fs : FS) (env : AdapterEnv) (stage : String) (r : Record) :
    Option.all (fun a => !a.2) (process_csv_record fs env stage r).ctorArgs = true := by
  obtain ⟨hc, _, _, _⟩ := process_csv_record_trace fs env stage r
  rw [hc]
  rcases record_try_body_ctorArgs fs env stage r with h | h <;> rw [h] <;> rfl

/-- One fold step of the batch loop leaves the total counter alone. -/
theorem batch_foldl_total (fs : FS) (env : Record → AdapterEnv) (stage : String)
    (l : List Record) (acc : BatchResult × List String) :
    (l.foldl (batch_step fs env stage) acc).1.total = acc.1.total := by
  induction l generalizing acc with
  | nil => rfl
  | cons r t ih =>
    rw [List.foldl_cons, ih]
    by_cases h : (process_csv_record fs (env r) stage r).result <;> simp [batch_step, h]

/-- Each iteration of the batch loop increments exactly one of the
success and failed counters. -/
theorem batch_foldl_counts (fs : FS) (env : Record → AdapterEnv) (stage : String)
    (l : List Record) (acc : BatchResult × List String) :
    (l.foldl (batch_step fs env stage) acc).1.success +
      (l.foldl (batch_step fs env stage) acc).1.failed =
    acc.1.success + acc.1.failed + l.length := by
  induction l generalizing acc with
  | nil => simp
  | cons r t ih =>
    rw [List.foldl_cons, ih]
    by_cases h : (process_csv_record fs (env r) stage r).result <;>
      simp [batch_step, h] <;> omega

/-- C1: after a batch run completes, the returned counters satisfy
success + failed = total, for every record set, adapter behaviour and
completion order; a record that raises still resolves to a boolean
(C4), so it is counted as a failure rather than dropped. -/
theorem batch_counts_invariant (fs : FS) (parse : Except String (List Record))
    (env : Record → AdapterEnv) (stage : String) (sched : List Record → List Record)
    (hs : ∀ l, (sched l).Perm l) :
    (process_secrets_file fs parse env stage sched).1.success +
      (process_secrets_file fs parse env stage sched).1.failed =
    (process_secrets_file fs parse env stage sched).1.total := by
  cases parse with
  | error e => rfl
  | ok records =>
    unfold process_secrets_file
    rw [batch_foldl_counts, batch_foldl_total]
    simp [(hs records).length_eq]

/-- Witness for C1: a two-record batch in which one record fails
validation and the other succeeds. -/
theorem batch_counts_invariant_witness :
    (∀ l : List Record, (id l).Perm l) ∧
    ((process_secrets_file fsAll (.ok [recFull, recNoPass]) (fun _ => envOk) "dev" id).1.success +
      (process_secrets_file fsAll (.ok [recFull, recNoPass]) (fun _ => envOk) "dev" id).1.failed =
     (process_secrets_file fsAll (.ok [recFull, recNoPass]) (fun _ => envOk) "dev" id).1.total) :=
  ⟨fun l => List.Perm.refl l,
   batch_counts_invariant fsAll (.ok [recFull, recNoPass]) (fun _ => envOk) "dev" id
     (fun l => List.Perm.refl l)⟩

/-- C5: when opening or parsing the CSV file raises, the exception is
caught at the batch boundary, logged, and the all-zero counters are
returned; `process_secrets_file` is a total function and never raises. -/
theorem file_level_error_caught (fs : FS) (parse : Except String (List Record))
    (env : Record → AdapterEnv) (stage : String) (sched : List Record → List Record)
    (e : String) (h : parse = .error e) :
    process_secrets_file fs parse env stage sched =
      (⟨0, 0, 0⟩, ["Error processing CSV file: " ++ e]) := by
  subst h
  rfl

/-- Witness for C5: an unreadable file. -/
theorem file_level_error_caught_witness :
    ((.error "read failed" : Except String (List Record)) = .error "read failed") ∧
    process_secrets_file fsAll (.error "read failed") (fun _ => envOk) "dev" id =
      (⟨0, 0, 0⟩, ["Error processing CSV file: " ++ "read failed"]) :=
  ⟨rfl, file_level_error_caught fsAll (.error "read failed") (fun _ => envOk) "dev" id
     "read failed" rfl⟩

/-- C8: the generated sample file has exactly num_records + 1 lines
(header plus rows), every synthetic row has secret type text and the
fixed placeholder keepic path, the output path is overwritten with
content that depends only on the record count, and re-running with the
same arguments changes nothing. -/
theorem sample_csv_generation (store : FileStore) (output_file : String) (n : Nat) :
    (sampleLines n).length = n + 1 ∧
    (∀ i : Nat, (sampleRow i).get? 2 = some "text" ∧
      (sampleRow i).get? 5 = some "./keepic.jpg") ∧
    generate_sample_csv store output_file n output_file = some (sampleContent n) ∧
    generate_sample_csv (generate_sample_csv store output_file n) output_file n =
      generate_sample_csv store output_file n := by
  refine ⟨?_, ?_, ?_, ?_⟩
  · simp [sampleLines]
  · intro i
    exact ⟨rfl, rfl⟩
  · simp [generate_sample_csv]
  · funext p
    by_cases h : p = output_file <;> simp [generate_sample_csv, h]

/-- Setting one element exchanges its contribution to a countP for
that of the new element. -/
theorem countP_set_get? (p : TaskPhase → Bool) :
    ∀ (l : List TaskPhase) (i : Nat) (b a : TaskPhase), l.get? i = some b →
      (l.set i a).countP p + (if p b then 1 else 0) =
        l.countP p + (if p a then 1 else 0) := by
  intro l
  induction l with
  | nil =>
    intro i b a h
    simp at h
  | cons c t ih =>
    intro i b a h
    cases i with
    | zero =>
      simp at h
      subst h
      simp [List.countP_cons]
      omega
    | succ i =>
      rw [List.get?_cons_succ] at h
      have := ih i b a h
      simp [List.countP_cons]
      omega

/-- Tasks past the authenticate step still hold the permit, so they
are counted among the permit holders. -/
theorem countP_pastAuth_le_holds (l : List TaskPhase) :
    l.countP pastAuthenticate ≤ l.countP holdsPermit := by
  induction l with
  | nil => simp
  | cons c t ih =>
    simp only [List.countP_cons]
    have hc : (if pastAuthenticate c then 1 else 0) ≤ (if holdsPermit c then 1 else 0) := by
      cases c <;> simp [pastAuthenticate, holdsPermit]
    omega

/-- One step of the semaphore semantics preserves the permit bound. -/
theorem heldCount_le_step {n : Nat} {s t : BatchState} (h : Step n s t)
    (hs : heldCount s ≤ n) : heldCount t ≤ n := by
  cases h with
  | acquire i sb hget hn =>
    have hset := countP_set_get? holdsPermit s.tasks i _ .validating hget
    simp [holdsPermit] at hset
    show List.countP holdsPermit (s.tasks.set i .validating) ≤ n
    unfold heldCount at hs hn
    omega
  | toAuth i sb hget =>
    have hset := countP_set_get? holdsPermit s.tasks i _ .authenticating hget
    simp [holdsPermit] at hset
    show List.countP holdsPermit (s.tasks.set i .authenticating) ≤ n
    unfold heldCount at hs
    omega
  | toSubmit i sb hget =>
    have hset := countP_set_get? holdsPermit s.tasks i _ .submitting hget
    simp [holdsPermit] at hset
    show List.countP holdsPermit (s.tasks.set i .submitting) ≤ n
    unfold heldCount at hs
    omega
  | finish i sb ph hget hh =>
    have hset := countP_set_get? holdsPermit s.tasks i ph .done hget
    rw [hh] at hset
    simp [holdsPermit] at hset
    show List.countP holdsPermit (s.tasks.set i .done) ≤ n
    unfold heldCount at hs
    omega

/-- Semaphore invariant: in every state reachable from the initial
state of a batch run with bound n, at most n tasks hold a permit. -/
theorem heldCount_le_of_reachable (n k : Nat) (s : BatchState)
    (h : Reachable n (initState k) s) : heldCount s ≤ n := by
  have h0 : heldCount (initState k) = 0 := by
    simp [heldCount, initState, List.countP_replicate, holdsPermit]
  induction h with
  | refl => omega
  | tail hab hbc ih => exact heldCount_le_step hbc ih

/-- C6: with max_concurrent = 1, in every reachable state of a batch
run at most one task is past the authenticate step: the semaphore of
size one admits at most one permit holder, and being past authenticate
implies holding the permit. -/
theorem semaphore_bounds_past_auth (k : Nat) (s : BatchState)
    (h : Reachable 1 (initState k) s) :
    pastAuthCount s ≤ 1 :=
  le_trans (countP_pastAuth_le_holds s.tasks) (heldCount_le_of_reachable 1 k s h)

/-- Witness for C6: a two-task batch after the first task acquired the
permit. -/
theorem semaphore_bounds_past_auth_witness :
    Reachable 1 (initState 2) ⟨(initState 2).tasks.set 0 .validating⟩ ∧
    pastAuthCount ⟨(initState 2).tasks.set 0 .validating⟩ ≤ 1 := by
  have hstep : Step 1 (initState 2) ⟨(initState 2).tasks.set 0 .validating⟩ :=
    Step.acquire 0 (initState 2) rfl (by decide)
  have hr := Relation.ReflTransGen.single hstep
  exact ⟨hr, semaphore_bounds_past_auth 2 ⟨(initState 2).tasks.set 0 .validating⟩ hr⟩

end ProtectSecrets
